import Mathlib

/-!
Verification of the distributed authorization subsystem of the iam
repository: the policy evaluation engine, the per-node local cache with
its replication refresh, the authentication middleware with the shared
revocation cache (all modelled from spec.md, since only their callers are
in the visible source slice), and the two visible source functions
`installHandler` (internal/authzserver/router.go) and `complete`
(internal/apiserver/apiserver.go), embedded directly from the Go source.
-/

namespace IAM

/-! ## Data model (spec.md section 3) -/

/-- Modelled from the spec: status of a Secret (section 3), `Active` or `Disabled`. -/
inductive SecretStatus
  | Active
  | Disabled
  deriving DecidableEq

/-- Modelled from the spec: a Secret record (section 3) — id, signingKey,
owner, optional expiry timestamp, status. The secret store itself is not
under the visible source slice. -/
structure Secret where
  id : String
  signingKey : String
  owner : String
  expiresAt : Option Nat
  status : SecretStatus
  deriving DecidableEq

/-- Modelled from the spec: statement effect, Allow or Deny (section 3). -/
inductive Effect
  | Allow
  | Deny
  deriving DecidableEq

/-- Modelled from the spec: a condition over the request context. The spec
leaves the condition language open; a condition here requires a context key
to hold an expected value, and a missing key makes the condition false
(section 4.2 edge case for malformed conditions). -/
structure Condition where
  key : String
  expected : String
  deriving DecidableEq

/-- Modelled from the spec: one policy statement — effect, matchable
actions, matchable resources, optional conditions (section 3). -/
structure Statement where
  effect : Effect
  actions : List String
  resources : List String
  conditions : List Condition
  deriving DecidableEq

/-- Modelled from the spec: a Policy — id, owner, document as an ordered
list of statements (section 3). -/
structure Policy where
  id : String
  owner : String
  document : List Statement
  deriving DecidableEq

/-- Modelled from the spec: the evaluation-engine view of a request —
action, resource, context key/value pairs (section 4.2), after the
middleware has resolved the caller. -/
structure EvalRequest where
  action : String
  resource : String
  context : List (String × String)
  deriving DecidableEq

/-- Modelled from the spec: the engine decision (section 4.2). -/
inductive Decision
  | Allow
  | Deny
  deriving DecidableEq

/-! ## Policy evaluation engine (spec.md section 4.2) -/

/-- Modelled from the spec: evaluate one condition against the request
context; a missing context key means the condition is false, never an
error (section 4.2 edge cases). -/
def evalCond (ctx : List (String × String)) (c : Condition) : Bool :=
  match ctx.lookup c.key with
  | none => false
  | some v => v = c.expected

/-- Modelled from the spec: a statement matches when its action set
matches the action, its resource set matches the resource, and all its
conditions hold on the context (section 4.2 step 3). -/
def stmtMatches (st : Statement) (r : EvalRequest) : Bool :=
  st.actions.contains r.action && st.resources.contains r.resource &&
    st.conditions.all (fun c => evalCond r.context c)

/-- Modelled from the spec: all statements of all gathered policies, in
policy order then document order (section 4.2 step 3). -/
def policyStatements (ps : List Policy) : List Statement :=
  (ps.map Policy.document).flatten

/-- Modelled from the spec: every matching statement across all policies
(section 4.2 step 3). -/
def matchingStatements (ps : List Policy) (r : EvalRequest) : List Statement :=
  (policyStatements ps).filter (fun st => stmtMatches st r)

/-- Modelled from the spec: the engine tie-break (section 4.2 step 4) —
any matching Deny gives Deny; else any matching Allow gives Allow; else
default-deny. -/
def evaluate (ps : List Policy) (r : EvalRequest) : Decision :=
  let ms := matchingStatements ps r
  if ms.any (fun st => st.effect = Effect.Deny) then Decision.Deny
  else if ms.any (fun st => st.effect = Effect.Allow) then Decision.Allow
  else Decision.Deny

/-! ## Concrete inputs used by witnesses -/

def stAllowRead : Statement :=
  Statement.mk Effect.Allow ["read"] ["doc1"] []

def stDenyRead : Statement :=
  Statement.mk Effect.Deny ["read"] ["doc1"] []

def pAllow : Policy := Policy.mk "P1" "tenantA" [stAllowRead]

def pDeny : Policy := Policy.mk "P2" "tenantA" [stDenyRead]

def rqRead : EvalRequest := EvalRequest.mk "read" "doc1" []

/-! ## Claim theorems C1 and C2 -/

/-- C1: if any statement of any gathered policy matches the request and
has effect Deny, the engine decision is Deny, whatever other matching
Allow statements exist in the same or other policies of the owner. -/
theorem deny_overrides (ps : List Policy) (r : EvalRequest)
    (p : Policy) (st : Statement)
    (hp : p ∈ ps) (hst : st ∈ p.document)
    (hm : stmtMatches st r = true) (hd : st.effect = Effect.Deny) :
    evaluate ps r = Decision.Deny := by
  have hmem : st ∈ matchingStatements ps r := by
    unfold matchingStatements policyStatements
    rw [List.mem_filter]
    exact ⟨List.mem_flatten.mpr ⟨p.document, List.mem_map_of_mem Policy.document hp, hst⟩, hm⟩
  have hany : (matchingStatements ps r).any (fun st => st.effect = Effect.Deny) = true := by
    rw [List.any_eq_true]
    exact ⟨st, hmem, by simp [hd]⟩
  unfold evaluate
  simp only [hany, if_true]

/-- C1 witness: with one Allow policy and one Deny policy of the same
owner both matching the read request, the decision is Deny. -/
theorem deny_overrides_witness : evaluate [pAllow, pDeny] rqRead = Decision.Deny :=
  deny_overrides [pAllow, pDeny] rqRead pDeny stDenyRead (by decide) (by decide)
    (by decide) (by decide)

/-- C2: if no statement of any gathered policy matches the request — in
particular when the owner has no policies at all — the engine decision is
Deny (default-deny). -/
theorem default_deny (ps : List Policy) (r : EvalRequest)
    (h : ∀ p, p ∈ ps → ∀ st, st ∈ p.document → stmtMatches st r = false) :
    evaluate ps r = Decision.Deny := by
  have hms : matchingStatements ps r = [] := by
    unfold matchingStatements policyStatements
    rw [List.filter_eq_nil_iff]
    intro st hst
    rw [List.mem_flatten] at hst
    obtain ⟨doc, hdoc, hstdoc⟩ := hst
    rw [List.mem_map] at hdoc
    obtain ⟨p, hp, hpd⟩ := hdoc
    subst hpd
    simp [h p hp st hstdoc]
  unfold evaluate
  simp [hms]

/-- C2 witness: an owner with an empty policy set is denied. -/
theorem default_deny_witness : evaluate [] rqRead = Decision.Deny :=
  default_deny [] rqRead (by intro p hp; cases hp)

/-! ## Local cache snapshot (spec.md sections 3 and 4.1) -/

/-- Modelled from the spec: the node-local cache snapshot — secrets by id,
policies by owner, monotonically increasing version (section 3). The maps
are association lists. -/
structure Snapshot where
  secretsByID : List (String × Secret)
  policiesByOwner : List (String × List Policy)
  version : Nat
  deriving DecidableEq

/-- Modelled from the spec: pure secret lookup against a snapshot
(section 4.1). -/
def lookupSecret (snap : Snapshot) (id : String) : Option Secret :=
  snap.secretsByID.lookup id

/-- Modelled from the spec: pure policy lookup against a snapshot; an
owner absent from the map has no policies (section 4.1). -/
def lookupPolicies (snap : Snapshot) (owner : String) : List Policy :=
  (snap.policiesByOwner.lookup owner).getD []

/-- Modelled from the spec: per-node cache state — the currently installed
snapshot, or none when the initial pull has never succeeded (section 4.1
failure semantics distinguish "not yet primed" from "primed but empty"). -/
structure CacheState where
  snapshot : Option Snapshot
  deriving DecidableEq

/-- Modelled from the spec: lock-free read of the latest installed
snapshot (section 4.1). -/
def currentSnapshot (st : CacheState) : Option Snapshot :=
  st.snapshot

/-- Modelled from the spec: cache-level secret lookup against the current
snapshot (section 4.1). -/
def cacheLookupSecret (st : CacheState) (id : String) : Option Secret :=
  (currentSnapshot st).bind (fun snap => lookupSecret snap id)

/-- Modelled from the spec: cache-level policy lookup against the current
snapshot (section 4.1). -/
def cacheLookupPolicies (st : CacheState) (owner : String) : List Policy :=
  ((currentSnapshot st).map (fun snap => lookupPolicies snap owner)).getD []

/-! ## Authentication middleware (spec.md section 4.3) -/

/-- Modelled from the spec: the claims carried by a bearer token — the
secretID and an opaque signature (section 4.3). -/
structure TokenClaims where
  secretID : String
  signature : String
  deriving DecidableEq

/-- Modelled from the spec: the terminal rejection steps of the
per-request authentication state machine (section 4.3). -/
inductive RejectReason
  | malformedToken
  | unknownSecret
  | disabledSecret
  | expiredSecret
  | badSignature
  | revoked
  deriving DecidableEq

/-- Modelled from the spec: outcome of the middleware — rejection, or the
resolved identity (secretID, owner) attached to the request context
(section 4.3). -/
inductive AuthResult
  | rejected (reason : RejectReason)
  | authenticated (secretID : String) (owner : String)
  deriving DecidableEq

/-- Modelled from the spec: a secret is expired when its optional
expiresAt timestamp has passed; an absent timestamp never expires
(section 3). -/
def secretExpired (s : Secret) (now : Nat) : Bool :=
  match s.expiresAt with
  | none => false
  | some t => t ≤ now

/-- Modelled from the spec: the middleware pipeline (section 4.3) —
extract the token (missing or malformed rejects); resolve the secret via
the local cache (absent, Disabled or expired rejects); verify the
signature with the signingKey (`verify` abstracts the signature scheme);
consult the shared revocation cache (`revoked` is the set of revoked
secret ids); on success attach the resolved identity. -/
def authenticate (verify : String → TokenClaims → Bool)
    (snap : Snapshot) (revoked : List String) (now : Nat)
    (tok : Option TokenClaims) : AuthResult :=
  match tok with
  | none => AuthResult.rejected RejectReason.malformedToken
  | some t =>
    match lookupSecret snap t.secretID with
    | none => AuthResult.rejected RejectReason.unknownSecret
    | some s =>
      if s.status = SecretStatus.Disabled then
        AuthResult.rejected RejectReason.disabledSecret
      else if secretExpired s now then
        AuthResult.rejected RejectReason.expiredSecret
      else if verify s.signingKey t then
        if revoked.contains t.secretID then
          AuthResult.rejected RejectReason.revoked
        else
          AuthResult.authenticated t.secretID s.owner
      else
        AuthResult.rejected RejectReason.badSignature

/-- Modelled from the spec: the middleware with the optional per-node
memoization of positive validation results (section 4.3) — a memo hit
skips re-parsing and re-verification, but the revocation check always
hits the shared cache, never the memo. The memo maps a secretID to the
previously resolved owner. -/
def authenticateWithMemo (verify : String → TokenClaims → Bool)
    (snap : Snapshot) (revoked : List String)
    (memo : List (String × String)) (now : Nat)
    (t : TokenClaims) : AuthResult :=
  match memo.lookup t.secretID with
  | some owner =>
    if revoked.contains t.secretID then
      AuthResult.rejected RejectReason.revoked
    else
      AuthResult.authenticated t.secretID owner
  | none => authenticate verify snap revoked now (some t)

/-! ## Authorization endpoint request handling (spec.md sections 4.2, 4.3, 7) -/

/-- Modelled from the spec: an inbound authorization request — optional
bearer token plus the evaluation-engine inputs (sections 4.2 and 6). -/
structure AuthzRequest where
  token : Option TokenClaims
  action : String
  resource : String
  context : List (String × String)
  deriving DecidableEq

/-- Modelled from the spec: the outcome of one request at the node level
(section 7 taxonomy) — CacheNotPrimed, AuthenticationFailed, or a policy
decision. -/
inductive ServerResult
  | cacheNotPrimed
  | unauthenticated (reason : RejectReason)
  | decision (d : Decision)
  deriving DecidableEq

/-- Modelled from the spec: the evaluation-engine view of an authorization
request (section 4.2). -/
def evalRequestOf (rq : AuthzRequest) : EvalRequest :=
  EvalRequest.mk rq.action rq.resource rq.context

/-- Modelled from the spec: end-to-end handling of one request
(sections 4.1 to 4.3) — a never-primed cache fails closed with
CacheNotPrimed before any evaluation; otherwise the middleware gates the
request, and only an authenticated request reaches the evaluation engine,
which runs over the policies of the resolved owner. -/
def handleRequest (verify : String → TokenClaims → Bool)
    (st : CacheState) (revoked : List String) (now : Nat)
    (rq : AuthzRequest) : ServerResult :=
  match currentSnapshot st with
  | none => ServerResult.cacheNotPrimed
  | some snap =>
    match authenticate verify snap revoked now rq.token with
    | AuthResult.rejected reason => ServerResult.unauthenticated reason
    | AuthResult.authenticated _ owner =>
      ServerResult.decision (evaluate (lookupPolicies snap owner) (evalRequestOf rq))

/-! ## Concrete inputs used by the middleware witnesses -/

def secDisabled : Secret :=
  Secret.mk "S1" "k1" "tenantA" none SecretStatus.Disabled

def secActive : Secret :=
  Secret.mk "S2" "k2" "tenantA" none SecretStatus.Active

def tokS1 : TokenClaims := TokenClaims.mk "S1" "sig1"

def tokS2 : TokenClaims := TokenClaims.mk "S2" "sig2"

def snapWitness : Snapshot :=
  Snapshot.mk [("S1", secDisabled), ("S2", secActive)] [("tenantA", [pAllow])] 1

def acceptAll : String → TokenClaims → Bool := fun _ _ => true

def rqS1 : AuthzRequest := AuthzRequest.mk (some tokS1) "read" "doc1" []

/-! ## Claim theorems C3, C4 and C5 -/

/-- C3: a bearer token whose secret is Disabled, or whose expiry timestamp
has passed, is rejected by the middleware for every signature verifier —
including one that accepts the signature — and the request handler
answers AuthenticationFailed, so the evaluation engine is never reached. -/
theorem disabled_or_expired_rejected (verify : String → TokenClaims → Bool)
    (snap : Snapshot) (revoked : List String) (now : Nat)
    (rq : AuthzRequest) (t : TokenClaims) (s : Secret)
    (htok : rq.token = some t)
    (hs : lookupSecret snap t.secretID = some s)
    (hbad : s.status = SecretStatus.Disabled ∨ ∃ e, s.expiresAt = some e ∧ e ≤ now) :
    ∃ reason, authenticate verify snap revoked now (some t) = AuthResult.rejected reason ∧
      handleRequest verify (CacheState.mk (some snap)) revoked now rq
        = ServerResult.unauthenticated reason := by
  have hauth : ∃ reason,
      authenticate verify snap revoked now (some t) = AuthResult.rejected reason := by
    by_cases hdis : s.status = SecretStatus.Disabled
    · exact ⟨RejectReason.disabledSecret, by simp [authenticate, hs, hdis]⟩
    · rcases hbad with hbad | ⟨e, he, hle⟩
      · exact absurd hbad hdis
      · have hexp : secretExpired s now = true := by
          simpa [secretExpired, he] using hle
        exact ⟨RejectReason.expiredSecret, by simp [authenticate, hs, hdis, hexp]⟩
  obtain ⟨reason, hr⟩ := hauth
  exact ⟨reason, hr, by simp [handleRequest, currentSnapshot, htok, hr]⟩

/-- C3 witness: the disabled secret S1 is rejected under a verifier that
accepts every signature, and the handler answers AuthenticationFailed. -/
theorem disabled_or_expired_rejected_witness :
    ∃ reason, authenticate acceptAll snapWitness [] 0 (some tokS1) = AuthResult.rejected reason ∧
      handleRequest acceptAll (CacheState.mk (some snapWitness)) [] 0 rqS1
        = ServerResult.unauthenticated reason :=
  disabled_or_expired_rejected acceptAll snapWitness [] 0 rqS1 tokS1 secDisabled
    (by decide) (by decide) (Or.inl (by decide))

/-- C4: while the local cache has never been primed, every request is
answered CacheNotPrimed, never a policy decision and never an
authentication outcome. -/
theorem never_primed_fail_closed (verify : String → TokenClaims → Bool)
    (st : CacheState) (revoked : List String) (now : Nat) (rq : AuthzRequest)
    (h : currentSnapshot st = none) :
    handleRequest verify st revoked now rq = ServerResult.cacheNotPrimed := by
  unfold handleRequest
  rw [h]

/-- C4 witness: the empty startup cache state answers CacheNotPrimed on a
concrete request. -/
theorem never_primed_fail_closed_witness :
    handleRequest acceptAll (CacheState.mk none) [] 0 rqS1 = ServerResult.cacheNotPrimed :=
  never_primed_fail_closed acceptAll (CacheState.mk none) [] 0 rqS1 rfl

/-- C5: a secretID marked revoked in the shared revocation cache is
rejected by the middleware for every snapshot (in particular one that
still shows the secret Active), every signature verifier, and every
content of the per-node memo — the revocation check consults the shared
cache unconditionally. -/
theorem revoked_always_rejected (verify : String → TokenClaims → Bool)
    (snap : Snapshot) (revoked : List String)
    (memo : List (String × String)) (now : Nat) (t : TokenClaims)
    (hrev : revoked.contains t.secretID = true) :
    ∃ reason, authenticateWithMemo verify snap revoked memo now t
      = AuthResult.rejected reason := by
  have hmem : t.secretID ∈ revoked := by simpa using hrev
  cases hmemo : memo.lookup t.secretID with
  | some owner =>
    exact ⟨RejectReason.revoked, by simp [authenticateWithMemo, hmemo, hmem]⟩
  | none =>
    cases hsec : lookupSecret snap t.secretID with
    | none =>
      exact ⟨RejectReason.unknownSecret,
        by simp [authenticateWithMemo, hmemo, authenticate, hsec]⟩
    | some s =>
      by_cases hdis : s.status = SecretStatus.Disabled
      · exact ⟨RejectReason.disabledSecret,
          by simp [authenticateWithMemo, hmemo, authenticate, hsec, hdis]⟩
      · by_cases hexp : secretExpired s now = true
        · exact ⟨RejectReason.expiredSecret,
            by simp [authenticateWithMemo, hmemo, authenticate, hsec, hdis, hexp]⟩
        · by_cases hver : verify s.signingKey t = true
          · exact ⟨RejectReason.revoked,
              by simp [authenticateWithMemo, hmemo, authenticate, hsec, hdis, hexp, hver, hmem]⟩
          · exact ⟨RejectReason.badSignature,
              by simp [authenticateWithMemo, hmemo, authenticate, hsec, hdis, hexp, hver]⟩

/-- C5 witness: the revoked secret S2 is rejected although the snapshot
shows it Active, the verifier accepts its signature, and the memo holds a
stale positive entry for it. -/
theorem revoked_always_rejected_witness :
    ∃ reason, authenticateWithMemo acceptAll snapWitness ["S2"] [("S2", "tenantA")] 0 tokS2
      = AuthResult.rejected reason :=
  revoked_always_rejected acceptAll snapWitness ["S2"] [("S2", "tenantA")] 0 tokS2 (by decide)

/-! ## Replication refresh (spec.md section 4.1) -/

/-- Modelled from the spec: the two failure modes of a refresh RPC
(section 4.1 failure semantics). -/
inductive RefreshError
  | networkError
  | malformedPayload
  deriving DecidableEq

/-- Modelled from the spec: the full data set returned by one successful
pull from the Replication Source — version, secrets and policies of that
version (sections 4.1 and 6). -/
structure Pull where
  version : Nat
  secrets : List (String × Secret)
  policies : List (String × List Policy)
  deriving DecidableEq

/-- Modelled from the spec: the immutable snapshot installed from one
pull — its secrets and its policies come from that single pull
(section 4.1). -/
def snapshotOfPull (p : Pull) : Snapshot :=
  Snapshot.mk p.secrets p.policies p.version

/-- Modelled from the spec: refresh (section 4.1) — a failed pull leaves
the state untouched; a successful pull installs the new snapshot
atomically when its version is newer than the installed one, and is a
no-op otherwise; the very first successful pull always installs. -/
def refresh (st : CacheState) (pull : Except RefreshError Pull) : CacheState :=
  match pull with
  | Except.error _ => st
  | Except.ok p =>
    match st.snapshot with
    | none => CacheState.mk (some (snapshotOfPull p))
    | some cur =>
      if cur.version < p.version then CacheState.mk (some (snapshotOfPull p)) else st

/-! ## Claim theorem C6 -/

/-- C6: a failed refresh leaves a previously installed snapshot fully in
place — the state is unchanged, and currentSnapshot, lookupSecret and
lookupPolicies all still answer from the last good snapshot. -/
theorem failed_refresh_retains_snapshot (st : CacheState) (snap : Snapshot)
    (e : RefreshError) (h : currentSnapshot st = some snap) :
    refresh st (Except.error e) = st ∧
      currentSnapshot (refresh st (Except.error e)) = some snap ∧
      (∀ id, cacheLookupSecret (refresh st (Except.error e)) id = lookupSecret snap id) ∧
      (∀ owner, cacheLookupPolicies (refresh st (Except.error e)) owner
        = lookupPolicies snap owner) := by
  refine ⟨rfl, h, fun id => ?_, fun owner => ?_⟩
  · simp [cacheLookupSecret, refresh, h]
  · simp [cacheLookupPolicies, refresh, h]

/-- C6 witness: a network-failed refresh on a primed state keeps the
installed snapshot and its lookups intact. -/
theorem failed_refresh_retains_snapshot_witness :
    refresh (CacheState.mk (some snapWitness)) (Except.error RefreshError.networkError)
        = CacheState.mk (some snapWitness) ∧
      currentSnapshot (refresh (CacheState.mk (some snapWitness))
        (Except.error RefreshError.networkError)) = some snapWitness ∧
      (∀ id, cacheLookupSecret (refresh (CacheState.mk (some snapWitness))
        (Except.error RefreshError.networkError)) id = lookupSecret snapWitness id) ∧
      (∀ owner, cacheLookupPolicies (refresh (CacheState.mk (some snapWitness))
        (Except.error RefreshError.networkError)) owner = lookupPolicies snapWitness owner) :=
  failed_refresh_retains_snapshot (CacheState.mk (some snapWitness)) snapWitness
    RefreshError.networkError rfl

/-! ## Snapshot installation atomicity (spec.md sections 4.1 and 5)

The snapshot pointer is the only state shared between the background
refresh task and the request-handling readers, and it is swapped whole,
never mutated in place (section 5). An execution of the cache is a list
of interleaved steps: refresh steps of the background task and read
steps of request handlers, each read observing the currently installed
snapshot in one atomic pointer read. -/

deriving instance DecidableEq for Except

/-- Modelled from the spec: one step of the interleaved execution — a
background refresh with its pull outcome, or an atomic reader observation
of the current snapshot (section 5 shared-resource policy). -/
inductive CacheOp
  | doRefresh (pull : Except RefreshError Pull)
  | doRead
  deriving DecidableEq

/-- Modelled from the spec: state transition of one step; a read does not
change the state. -/
def stepCache (st : CacheState) (op : CacheOp) : CacheState :=
  match op with
  | CacheOp.doRefresh pull => refresh st pull
  | CacheOp.doRead => st

/-- Modelled from the spec: the sequence of snapshots observed by the
read steps of an execution, in order. -/
def readsOf : CacheState → List CacheOp → List (Option Snapshot)
  | _, [] => []
  | st, CacheOp.doRead :: ops => currentSnapshot st :: readsOf st ops
  | st, CacheOp.doRefresh pull :: ops => readsOf (refresh st pull) ops

/-- Modelled from the spec: the cache state at node startup, before any
pull has succeeded (section 3 lifecycle). -/
def initialCacheState : CacheState :=
  CacheState.mk none

theorem refresh_snapshot_cases (st : CacheState) (pull : Except RefreshError Pull) :
    (refresh st pull).snapshot = st.snapshot ∨
      ∃ p, pull = Except.ok p ∧ (refresh st pull).snapshot = some (snapshotOfPull p) := by
  cases pull with
  | error e => exact Or.inl rfl
  | ok p =>
    cases hcur : st.snapshot with
    | none => exact Or.inr ⟨p, rfl, by simp [refresh, hcur]⟩
    | some cur =>
      by_cases hv : cur.version < p.version
      · exact Or.inr ⟨p, rfl, by simp [refresh, hcur, hv]⟩
      · exact Or.inl (by simp [refresh, hcur, hv])

theorem readsOf_from_installed (ops : List CacheOp) :
    ∀ st obs, obs ∈ readsOf st ops →
      obs = st.snapshot ∨
        ∃ p, CacheOp.doRefresh (Except.ok p) ∈ ops ∧ obs = some (snapshotOfPull p) := by
  induction ops with
  | nil => intro st obs hobs; cases hobs
  | cons op ops ih =>
    intro st obs hobs
    cases op with
    | doRead =>
      rw [readsOf] at hobs
      rcases List.mem_cons.mp hobs with hobs | hobs
      · exact Or.inl hobs
      · rcases ih st obs hobs with h | ⟨p, hp, hsnap⟩
        · exact Or.inl h
        · exact Or.inr ⟨p, List.mem_cons_of_mem _ hp, hsnap⟩
    | doRefresh pull =>
      rw [readsOf] at hobs
      rcases ih (refresh st pull) obs hobs with h | ⟨p, hp, hsnap⟩
      · rcases refresh_snapshot_cases st pull with hsame | ⟨p, hpull, hinst⟩
        · exact Or.inl (h.trans hsame)
        · exact Or.inr ⟨p, List.mem_cons.mpr (Or.inl (by rw [hpull])), h.trans hinst⟩
      · exact Or.inr ⟨p, List.mem_cons_of_mem _ hp, hsnap⟩

/-! ## Claim theorem C8 -/

/-- C8: in every interleaved execution starting at the unprimed startup
state, every snapshot observed by a reader is either none (not yet
primed) or exactly the snapshot installed whole from one single
successful pull of the execution — its secrets map, its policies map and
its version all come from that one pull, so a reader can never pair the
secrets of one replication version with the policies of another. -/
theorem snapshot_install_atomic (ops : List CacheOp) (obs : Option Snapshot)
    (hobs : obs ∈ readsOf initialCacheState ops) :
    obs = none ∨
      ∃ p, CacheOp.doRefresh (Except.ok p) ∈ ops ∧
        obs = some (snapshotOfPull p) ∧
        obs = some (Snapshot.mk p.secrets p.policies p.version) := by
  rcases readsOf_from_installed ops initialCacheState obs hobs with h | ⟨p, hp, hsnap⟩
  · exact Or.inl h
  · exact Or.inr ⟨p, hp, hsnap, hsnap⟩

/-- C8 witness: in the execution installing one concrete pull and then
reading, the single observation is the snapshot of that pull. -/
theorem snapshot_install_atomic_witness :
    some (snapshotOfPull (Pull.mk 1 [("S2", secActive)] [("tenantA", [pAllow])])) = none ∨
      ∃ p, CacheOp.doRefresh (Except.ok p) ∈
          [CacheOp.doRefresh (Except.ok (Pull.mk 1 [("S2", secActive)] [("tenantA", [pAllow])])),
            CacheOp.doRead] ∧
        some (snapshotOfPull (Pull.mk 1 [("S2", secActive)] [("tenantA", [pAllow])]))
          = some (snapshotOfPull p) ∧
        some (snapshotOfPull (Pull.mk 1 [("S2", secActive)] [("tenantA", [pAllow])]))
          = some (Snapshot.mk p.secrets p.policies p.version) :=
  snapshot_install_atomic
    [CacheOp.doRefresh (Except.ok (Pull.mk 1 [("S2", secActive)] [("tenantA", [pAllow])])),
      CacheOp.doRead]
    (some (snapshotOfPull (Pull.mk 1 [("S2", secActive)] [("tenantA", [pAllow])])))
    (by decide)

/-! ## Router of the authorization server

Embedded from src/internal/authzserver/router.go. `installHandler`
registers, on the gin engine, a NoRoute chain consisting of the
authentication-cache middleware followed by a handler writing the
ErrPageNotFound error, and the group `/v1` guarded by the same
authentication-cache middleware with the single route POST `/v1/authz`
bound to the Authorize handler. -/

/-- HTTP methods relevant to the embedded router. -/
inductive Method
  | GET
  | POST
  | PUT
  | DELETE
  deriving DecidableEq

/-- Handlers named by router.go: the middleware returned by
AuthCacheMiddlewareFunc, the Authorize handler of the authz API, and the
anonymous NoRoute handler writing ErrPageNotFound. -/
inductive Handler
  | authCacheMiddleware
  | authorizeHandler
  | pageNotFoundHandler
  deriving DecidableEq

/-- One registered route: method, path, and handler chain in registration
order (group middleware first). -/
structure Route where
  method : Method
  path : String
  chain : List Handler
  deriving DecidableEq

/-- A gin engine as visible to the router: the registered routes and the
NoRoute chain used when no route matches. -/
structure Engine where
  routes : List Route
  noRoute : List Handler
  deriving DecidableEq

/-- Embedded from installHandler (router.go lines 18-34): NoRoute gets
the auth-cache middleware then the page-not-found writer; the group /v1
carries the auth-cache middleware, and POST /v1/authz appends the
Authorize handler to the group chain. -/
def installHandler : Engine :=
  Engine.mk
    [Route.mk Method.POST "/v1/authz" [Handler.authCacheMiddleware, Handler.authorizeHandler]]
    [Handler.authCacheMiddleware, Handler.pageNotFoundHandler]

/-- Route lookup: the chain of the first registered route with matching
method and path, if any. -/
def findRoute (e : Engine) (m : Method) (path : String) : Option (List Handler) :=
  (e.routes.find? (fun r => r.method = m && r.path = path)).map Route.chain

/-- Chain dispatched for a request: the matching route chain, or the
NoRoute chain when nothing matches (gin NoRoute semantics). -/
def dispatchChain (e : Engine) (m : Method) (path : String) : List Handler :=
  (findRoute e m path).getD e.noRoute

/-- Responses a chain can write: the middleware abort on authentication
failure, the ErrPageNotFound error, a policy decision from Authorize, or
nothing when the chain is exhausted. -/
inductive RouterResponse
  | unauthorized (reason : RejectReason)
  | errPageNotFound
  | decision (d : Decision)
  | noResponse
  deriving DecidableEq

/-- Sequential execution of a handler chain, gin-style: the auth-cache
middleware aborts with the rejection when authentication fails and calls
the rest of the chain otherwise; Authorize answers with the decision for
the identity resolved by the middleware (`ar` is the middleware view of
the request, `dec` the engine applied to the resolved owner); the NoRoute
terminal handler writes ErrPageNotFound. Returns the response and the
list of handlers that actually ran, in order. -/
def runChain (ar : AuthResult) (dec : String → Decision) :
    List Handler → RouterResponse × List Handler
  | [] => (RouterResponse.noResponse, [])
  | Handler.authCacheMiddleware :: rest =>
    match ar with
    | AuthResult.rejected reason =>
      (RouterResponse.unauthorized reason, [Handler.authCacheMiddleware])
    | AuthResult.authenticated _ _ =>
      let tail := runChain ar dec rest
      (tail.1, Handler.authCacheMiddleware :: tail.2)
  | Handler.authorizeHandler :: _ =>
    match ar with
    | AuthResult.rejected reason => (RouterResponse.unauthorized reason, [Handler.authorizeHandler])
    | AuthResult.authenticated _ owner =>
      (RouterResponse.decision (dec owner), [Handler.authorizeHandler])
  | Handler.pageNotFoundHandler :: _ =>
    (RouterResponse.errPageNotFound, [Handler.pageNotFoundHandler])

/-- Serving one request through the engine built by installHandler-style
registration: dispatch the chain for the method and path, then run it. -/
def serve (ar : AuthResult) (dec : String → Decision) (e : Engine)
    (m : Method) (path : String) : RouterResponse × List Handler :=
  runChain ar dec (dispatchChain e m path)

/-! ## Claim theorems C7 and C10 -/

/-- C7: on the engine built by installHandler, every request to POST
/v1/authz runs the auth-cache middleware first; a request the middleware
rejects gets the rejection response with only the middleware having run —
the Authorize handler (and hence the evaluation engine) is never
reached — while an authenticated request runs exactly middleware then
Authorize. -/
theorem authz_route_gated (ar : AuthResult) (dec : String → Decision) :
    (serve ar dec installHandler Method.POST "/v1/authz").2.head?
        = some Handler.authCacheMiddleware ∧
      (∀ reason, ar = AuthResult.rejected reason →
        serve ar dec installHandler Method.POST "/v1/authz"
          = (RouterResponse.unauthorized reason, [Handler.authCacheMiddleware])) ∧
      (∀ id owner, ar = AuthResult.authenticated id owner →
        serve ar dec installHandler Method.POST "/v1/authz"
          = (RouterResponse.decision (dec owner),
              [Handler.authCacheMiddleware, Handler.authorizeHandler])) := by
  cases ar with
  | rejected reason =>
    refine ⟨rfl, ?_, ?_⟩
    · intro r hr
      cases hr
      rfl
    · intro id owner h
      cases h
  | authenticated id owner =>
    refine ⟨rfl, ?_, ?_⟩
    · intro r hr
      cases hr
    · intro i o h
      cases h
      rfl

/-- C7 witness: a request rejected as revoked on POST /v1/authz gets the
rejection with only the middleware having run. -/
theorem authz_route_gated_witness :
    serve (AuthResult.rejected RejectReason.revoked) (fun _ => Decision.Deny)
        installHandler Method.POST "/v1/authz"
      = (RouterResponse.unauthorized RejectReason.revoked, [Handler.authCacheMiddleware]) :=
  (authz_route_gated (AuthResult.rejected RejectReason.revoked)
    (fun _ => Decision.Deny)).2.1 RejectReason.revoked rfl

/-- C10: on the engine built by installHandler, a request whose method
and path match no registered route still runs the auth-cache middleware
first; when the caller is authenticated the written response is the
ErrPageNotFound error, and whatever the authentication outcome the
response is never a policy decision. -/
theorem noroute_still_authenticated (ar : AuthResult) (dec : String → Decision)
    (m : Method) (path : String)
    (h : findRoute installHandler m path = none) :
    (serve ar dec installHandler m path).2.head? = some Handler.authCacheMiddleware ∧
      (∀ id owner, ar = AuthResult.authenticated id owner →
        serve ar dec installHandler m path
          = (RouterResponse.errPageNotFound,
              [Handler.authCacheMiddleware, Handler.pageNotFoundHandler])) ∧
      (∀ d, (serve ar dec installHandler m path).1 ≠ RouterResponse.decision d) := by
  have hch : dispatchChain installHandler m path
      = [Handler.authCacheMiddleware, Handler.pageNotFoundHandler] := by
    unfold dispatchChain
    rw [h]
    rfl
  unfold serve
  rw [hch]
  cases ar with
  | rejected reason =>
    refine ⟨rfl, ?_, ?_⟩
    · intro id owner hid
      cases hid
    · intro d hd
      cases hd
  | authenticated id owner =>
    refine ⟨rfl, ?_, ?_⟩
    · intro i o hio
      cases hio
      rfl
    · intro d hd
      cases hd

/-- C10 witness: an authenticated GET to an unregistered path gets the
ErrPageNotFound response after the middleware ran. -/
theorem noroute_still_authenticated_witness :
    serve (AuthResult.authenticated "S2" "tenantA") (fun _ => Decision.Allow)
        installHandler Method.GET "/nope"
      = (RouterResponse.errPageNotFound,
          [Handler.authCacheMiddleware, Handler.pageNotFoundHandler]) :=
  (noroute_still_authenticated (AuthResult.authenticated "S2" "tenantA")
    (fun _ => Decision.Allow) Method.GET "/nope" (by decide)).2.1 "S2" "tenantA" rfl

/-! ## Option completion of the apiserver

Embedded from src/internal/apiserver/apiserver.go, function `complete`
(lines 307-327): load the recommended config file, unmarshal the viper
state into the options, generate a fresh secret key when the JWT signing
key is empty, complete the secure-serving options, and wrap the result.
The external effects — the viper unmarshal, the generated key from
idutil.NewSecretKey, and SecureServing.Complete — are passed as explicit
inputs. -/

/-- JWT options of the server; only the signing key is touched by
complete (the remaining fields of the real JwtOptions are not). -/
structure JwtOptions where
  key : String
  deriving DecidableEq

/-- Server run options as far as complete inspects them: the JWT option
group. The other option groups are carried through unchanged and are
omitted. -/
structure ServerRunOptions where
  jwtOptions : JwtOptions
  deriving DecidableEq

/-- Failure modes of complete visible in the source: the viper unmarshal
error and the SecureServing.Complete error. -/
inductive CompleteError
  | unmarshalError
  | secureServingError
  deriving DecidableEq

/-- Embedded from complete (apiserver.go lines 307-327): unmarshal the
loaded configuration into the options (`unmarshal` models
viper.Unmarshal applied after LoadConfig and may rewrite any field),
then replace an empty JWT key by the freshly generated `newSecretKey`
(idutil.NewSecretKey), then run SecureServing.Complete
(`secureServing`), and return the completed options. -/
def complete (unmarshal : ServerRunOptions → Except CompleteError ServerRunOptions)
    (newSecretKey : String)
    (secureServing : ServerRunOptions → Except CompleteError Unit)
    (s : ServerRunOptions) : Except CompleteError ServerRunOptions :=
  match unmarshal s with
  | Except.error e => Except.error e
  | Except.ok s1 =>
    let s2 :=
      if s1.jwtOptions.key = "" then ServerRunOptions.mk (JwtOptions.mk newSecretKey) else s1
    match secureServing s2 with
    | Except.error e => Except.error e
    | Except.ok _ => Except.ok s2

/-! ## Claim theorem C9 -/

/-- C9: when the configuration unmarshal leaves the JWT key as given and
the generated secret key is non-empty, a successful complete returns
options whose JWT key is non-empty — an empty input key is replaced by
the freshly generated key, and a non-empty input key is left unchanged. -/
theorem complete_jwt_key_nonempty
    (unmarshal : ServerRunOptions → Except CompleteError ServerRunOptions)
    (newSecretKey : String)
    (secureServing : ServerRunOptions → Except CompleteError Unit)
    (s out : ServerRunOptions)
    (hu : ∀ s1, unmarshal s = Except.ok s1 → s1.jwtOptions.key = s.jwtOptions.key)
    (hk : newSecretKey ≠ "")
    (hout : complete unmarshal newSecretKey secureServing s = Except.ok out) :
    out.jwtOptions.key ≠ "" ∧
      (s.jwtOptions.key = "" → out.jwtOptions.key = newSecretKey) ∧
      (s.jwtOptions.key ≠ "" → out.jwtOptions.key = s.jwtOptions.key) := by
  unfold complete at hout
  cases hun : unmarshal s with
  | error e => rw [hun] at hout; cases hout
  | ok s1 =>
    rw [hun] at hout
    dsimp only at hout
    have hkey := hu s1 hun
    by_cases hempty : s1.jwtOptions.key = ""
    · rw [if_pos hempty] at hout
      cases hss : secureServing (ServerRunOptions.mk (JwtOptions.mk newSecretKey)) with
      | error e => rw [hss] at hout; cases hout
      | ok u =>
        rw [hss] at hout
        cases hout
        refine ⟨hk, fun _ => rfl, fun hne => ?_⟩
        rw [← hkey] at hne
        exact absurd hempty hne
    · rw [if_neg hempty] at hout
      cases hss : secureServing s1 with
      | error e => rw [hss] at hout; cases hout
      | ok u =>
        rw [hss] at hout
        cases hout
        rw [hkey] at hempty
        exact ⟨by rw [hkey]; exact hempty, fun h => absurd h hempty, fun _ => hkey⟩

/-- C9 witness: with an identity unmarshal, a trivially succeeding
secure-serving completion and a concrete generated key, an empty input
key comes out as the generated key, hence non-empty. -/
theorem complete_jwt_key_nonempty_witness :
    (ServerRunOptions.mk (JwtOptions.mk "GeneratedKey")).jwtOptions.key ≠ "" ∧
      ((ServerRunOptions.mk (JwtOptions.mk "")).jwtOptions.key = "" →
        (ServerRunOptions.mk (JwtOptions.mk "GeneratedKey")).jwtOptions.key = "GeneratedKey") ∧
      ((ServerRunOptions.mk (JwtOptions.mk "")).jwtOptions.key ≠ "" →
        (ServerRunOptions.mk (JwtOptions.mk "GeneratedKey")).jwtOptions.key
          = (ServerRunOptions.mk (JwtOptions.mk "")).jwtOptions.key) :=
  complete_jwt_key_nonempty Except.ok "GeneratedKey" (fun _ => Except.ok ())
    (ServerRunOptions.mk (JwtOptions.mk ""))
    (ServerRunOptions.mk (JwtOptions.mk "GeneratedKey"))
    (fun s1 h => by cases h; rfl) (by decide) (by decide)

end IAM
